import Mathlib

/-!
Shallow embedding of the po-merge repository's merge-decision engine.

The repository contains two parallel implementations of the engine:
`src/po_merge` (package `po_merge`) and `src/django_po_merge` (package
`django_po_merge`).  Both are embedded below, each in its own namespace,
with the Python functions translated function-by-function.  External
collaborators (the `polib` library's `pofile`/`str(entry)`/`POFile.save`,
the `msgfmt` validator and the on-disk file reads) are modelled as
explicit function parameters or `Except`-valued inputs.
-/

/-- One catalog record, mirroring the `polib.POEntry` fields the engine
consults.  `comment` stands for the non-merge-relevant payload (comments,
source locations, other flags) that is carried along but never compared. -/
structure Entry where
  msgctxt : Option String
  msgid : String
  msgstr : String
  msgstr_plural : List (Nat × String)
  fuzzy : Bool
  obsolete : Bool
  comment : String
  deriving DecidableEq, Repr

/-- The merge configuration (class `MergeConfig`): read from git config by
the real code, modelled as a plain immutable value. -/
structure MergeConfig where
  strategy : String
  prefer_non_fuzzy : Bool
  validate_compiled : Bool
  deriving DecidableEq, Repr

/-- Result of `parse_po_resilient` (the dict it returns). -/
structure ParseResult where
  metadata : List (String × String)
  valid_entries : List Entry
  failed_entries : List (String × String × Nat)
  parse_successful : Bool
  deriving DecidableEq, Repr

/-- Outcome of `resolve_conflict`: a returned entry, the
`UnresolvedConflict` exception, or the generic `Exception` raised on an
unknown strategy. -/
inductive ResolveOutcome where
  | resolved (e : Entry)
  | unresolved (ours theirs : Entry)
  | fatal (msg : String)
  deriving DecidableEq, Repr

/-- Outcome of `decide_entry`: an entry, `None`, or a propagated
exception from `resolve_conflict`. -/
inductive DecideOutcome where
  | entry (e : Entry)
  | noEntry
  | unresolved (ours theirs : Entry)
  | fatal (msg : String)
  deriving DecidableEq, Repr

/-- In Python, `decide_entry` returns the value of `resolve_conflict`
directly and lets its exceptions propagate; this lifts the modelled
outcome accordingly. -/
def liftResolve : ResolveOutcome → DecideOutcome
  | .resolved e => .entry e
  | .unresolved o t => .unresolved o t
  | .fatal m => .fatal m

namespace django_po_merge

/-- Source function `get_unique_entry_key` from `src/django_po_merge/merger.py`:
`(entry.msgctxt, entry.msgid, entry.obsolete)`. -/
def get_unique_entry_key (entry : Entry) : Option String × String × Bool :=
  (entry.msgctxt, entry.msgid, entry.obsolete)

/-- Source function `entries_equal` from `src/django_po_merge/merger.py`. -/
def entries_equal (entry1 entry2 : Entry) : Bool :=
  entry1.msgstr == entry2.msgstr
    && entry1.msgstr_plural == entry2.msgstr_plural
    && entry1.fuzzy == entry2.fuzzy

/-- Source function `resolve_conflict` from `src/django_po_merge/merger.py`: fuzzy
preference, then the configured strategy.  (No obsolete check.) -/
def resolve_conflict (ours_entry theirs_entry : Entry) (config : MergeConfig) :
    ResolveOutcome :=
  if config.prefer_non_fuzzy && ours_entry.fuzzy && ! theirs_entry.fuzzy then
    .resolved theirs_entry
  else if config.prefer_non_fuzzy && theirs_entry.fuzzy && ! ours_entry.fuzzy then
    .resolved ours_entry
  else if config.strategy = "ours" then
    .resolved ours_entry
  else if config.strategy = "theirs" then
    .resolved theirs_entry
  else if config.strategy = "none" then
    .unresolved ours_entry theirs_entry
  else
    .fatal ("Unknown strategy: " ++ config.strategy)

/-- Source function `decide_entry` from `src/django_po_merge/merger.py`. -/
def decide_entry (base_entry ours_entry theirs_entry : Option Entry)
    (config : MergeConfig) : DecideOutcome :=
  match base_entry with
  | none =>
    match ours_entry, theirs_entry with
    | none, none => .noEntry
    | none, some te => .entry te
    | some oe, none => .entry oe
    | some oe, some te =>
      if entries_equal oe te then .entry oe
      else liftResolve (resolve_conflict oe te config)
  | some be =>
    match ours_entry, theirs_entry with
    | none, none => .noEntry
    | none, some te => .entry te
    | some oe, none => .entry oe
    | some oe, some te =>
      let ours_changed : Bool := ! entries_equal be oe
      let theirs_changed : Bool := ! entries_equal be te
      if ! ours_changed && ! theirs_changed then .entry be
      else if ours_changed && ! theirs_changed then .entry oe
      else if theirs_changed && ! ours_changed then .entry te
      else if entries_equal oe te then .entry oe
      else liftResolve (resolve_conflict oe te config)

end django_po_merge

namespace django_po_merge

/-- The part of a `polib.POFile` object that the resilient parser
consults: its entry list and its metadata mapping.  The `pofile` parsing
function itself is external (the `polib` library) and is passed in as a
parameter of type `String → Except String POFileLite`, `.error` standing
for a raised exception. -/
structure POFileLite where
  entries : List Entry
  metadata : List (String × String)
  deriving DecidableEq, Repr

/-- Python's `pat in s` substring test: for a nonempty pattern,
`s.splitOn pat` has more than one piece iff `pat` occurs in `s`. -/
def containsSub (s pat : String) : Bool :=
  (s.splitOn pat).length != 1

/-- Python's `chunk.count` of the newline character. -/
def countNL (s : String) : Nat :=
  s.data.count '\n'

/-- Source function `split_po_entries` from `src/django_po_merge/parser.py`: split on
blank lines, strip each chunk, drop empty chunks. -/
def split_po_entries (text : String) : List String :=
  ((text.splitOn ("\n\n")).map (fun chunk => chunk.trim)).filter (fun chunk => chunk ≠ "")

/-- Source function `create_unique_entry_from_text` from `src/django_po_merge/parser.py`:
parse one chunk with `polib.pofile`; a raised exception or an empty
entry list becomes an error message. -/
def create_unique_entry_from_text (pofileFn : String → Except String POFileLite)
    (entry_text : String) : Option Entry × Option String :=
  match pofileFn entry_text with
  | .error e => (none, some e)
  | .ok po =>
    match po.entries with
    | [] => (none, some ("No entry found in text"))
    | e :: _ => (some e, none)

/-- The loop state of `parse_po_resilient`: the metadata found so far,
the accumulated valid and failed entries, and the running line offset. -/
structure PState where
  metadata : List (String × String)
  valids : List Entry
  faileds : List (String × String × Nat)
  offset : Nat
  deriving DecidableEq, Repr

/-- One iteration of the chunk loop of `parse_po_resilient`
(`src/django_po_merge/parser.py`, lines 51-69). -/
def parse_step (pofileFn : String → Except String POFileLite)
    (st : PState) (chunk : String) : PState :=
  let is_metadata := containsSub chunk ("msgid \"\"") && containsSub chunk ("msgstr \"\"")
  let st' :=
    if is_metadata then
      match pofileFn chunk with
      | .ok temp_po => { st with metadata := temp_po.metadata }
      | .error e => { st with faileds := st.faileds ++ [(chunk, e, st.offset)] }
    else
      match create_unique_entry_from_text pofileFn chunk with
      | (some entry, _) =>
        if entry.msgid ≠ "" then { st with valids := st.valids ++ [entry] } else st
      | (none, some err) => { st with faileds := st.faileds ++ [(chunk, err, st.offset)] }
      | (none, none) => st
  { st' with offset := st.offset + countNL chunk + 2 }

/-- The chunk loop of `parse_po_resilient`, folding `parse_step` over
the chunks in order. -/
def parse_loop (pofileFn : String → Except String POFileLite) :
    List String → PState → PState
  | [], st => st
  | chunk :: rest, st => parse_loop pofileFn rest (parse_step pofileFn st chunk)

/-- Source function `parse_po_resilient` from `src/django_po_merge/parser.py`, applied to
file content that was successfully read. -/
def parse_po_resilient_content (pofileFn : String → Except String POFileLite)
    (content : String) : ParseResult :=
  let final := parse_loop pofileFn (split_po_entries content) ⟨[], [], [], 0⟩
  { metadata := final.metadata
    valid_entries := final.valids
    failed_entries := final.faileds
    parse_successful := final.faileds.isEmpty }

/-- Function `parse_po_resilient` including its file-read preamble: a failed read
re-raises to the caller (`.error`); readable content is always parsed to
a `ParseResult` (`.ok`). -/
def parse_po_file (pofileFn : String → Except String POFileLite)
    (readResult : Except String String) : Except String ParseResult :=
  match readResult with
  | .error e => .error e
  | .ok content => .ok (parse_po_resilient_content pofileFn content)

/-- Specification-side view: the reason one chunk fails, following the
branch structure of the parse loop (`none` = the chunk does not produce
a failed entry). -/
def chunk_failure (pofileFn : String → Except String POFileLite)
    (chunk : String) : Option String :=
  if containsSub chunk ("msgid \"\"") && containsSub chunk ("msgstr \"\"") then
    match pofileFn chunk with
    | .ok _ => none
    | .error e => some e
  else
    match create_unique_entry_from_text pofileFn chunk with
    | (some _, _) => none
    | (none, err) => err

/-- Specification-side view: the failed entries the parser should
produce, chunk by chunk, with each failure carrying its own raw text and
the line offset accumulated before it. -/
def failures_list (pofileFn : String → Except String POFileLite) :
    List String → Nat → List (String × String × Nat)
  | [], _ => []
  | chunk :: rest, off =>
    (match chunk_failure pofileFn chunk with
     | some m => [(chunk, m, off)]
     | none => []) ++ failures_list pofileFn rest (off + countNL chunk + 2)

/-- Specification-side view: the valid entries the parser should
produce, chunk by chunk. -/
def valids_list (pofileFn : String → Except String POFileLite) :
    List String → List Entry
  | [] => []
  | chunk :: rest =>
    (if containsSub chunk ("msgid \"\"") && containsSub chunk ("msgstr \"\"") then []
     else
       match create_unique_entry_from_text pofileFn chunk with
       | (some entry, _) => if entry.msgid ≠ "" then [entry] else []
       | (none, _) => []) ++ valids_list pofileFn rest

end django_po_merge

namespace po_merge

/-- Source function `get_unique_entry_key` from `src/po_merge/merger.py`:
`(entry.msgctxt, entry.msgid)` — a two-part key. -/
def get_unique_entry_key (entry : Entry) : Option String × String :=
  (entry.msgctxt, entry.msgid)

/-- Source function `entries_equal` from `src/po_merge/merger.py`. -/
def entries_equal (entry1 entry2 : Entry) : Bool :=
  entry1.msgstr == entry2.msgstr
    && entry1.msgstr_plural == entry2.msgstr_plural
    && entry1.fuzzy == entry2.fuzzy

/-- Source function `resolve_conflict` from `src/po_merge/merger.py`: obsolete check
first, then fuzzy preference, then the configured strategy. -/
def resolve_conflict (ours_entry theirs_entry : Entry) (config : MergeConfig) :
    ResolveOutcome :=
  if ours_entry.obsolete && ! theirs_entry.obsolete then
    .resolved theirs_entry
  else if theirs_entry.obsolete && ! ours_entry.obsolete then
    .resolved ours_entry
  else if config.prefer_non_fuzzy && ours_entry.fuzzy && ! theirs_entry.fuzzy then
    .resolved theirs_entry
  else if config.prefer_non_fuzzy && theirs_entry.fuzzy && ! ours_entry.fuzzy then
    .resolved ours_entry
  else if config.strategy = "ours" then
    .resolved ours_entry
  else if config.strategy = "theirs" then
    .resolved theirs_entry
  else if config.strategy = "none" then
    .unresolved ours_entry theirs_entry
  else
    .fatal ("Unknown strategy: " ++ config.strategy)

/-- Source function `decide_entry` from `src/po_merge/merger.py` (textually identical to
the `django_po_merge` version but calling this package's
`resolve_conflict`). -/
def decide_entry (base_entry ours_entry theirs_entry : Option Entry)
    (config : MergeConfig) : DecideOutcome :=
  match base_entry with
  | none =>
    match ours_entry, theirs_entry with
    | none, none => .noEntry
    | none, some te => .entry te
    | some oe, none => .entry oe
    | some oe, some te =>
      if entries_equal oe te then .entry oe
      else liftResolve (resolve_conflict oe te config)
  | some be =>
    match ours_entry, theirs_entry with
    | none, none => .noEntry
    | none, some te => .entry te
    | some oe, none => .entry oe
    | some oe, some te =>
      let ours_changed : Bool := ! entries_equal be oe
      let theirs_changed : Bool := ! entries_equal be te
      if ! ours_changed && ! theirs_changed then .entry be
      else if ours_changed && ! theirs_changed then .entry oe
      else if theirs_changed && ! ours_changed then .entry te
      else if entries_equal oe te then .entry oe
      else liftResolve (resolve_conflict oe te config)

/-- The Python sort key `(e.msgid, e.msgctxt or '')`, ordered
lexicographically as Python orders tuples of strings. -/
def sortKey (e : Entry) : String ×ₗ String :=
  toLex (e.msgid, e.msgctxt.getD (""))

/-- Ascending comparison of entries by `(msgid, msgctxt or '')`. -/
def entryLe (a b : Entry) : Prop :=
  sortKey a ≤ sortKey b

instance : DecidableRel entryLe :=
  fun a b => inferInstanceAs (Decidable (sortKey a ≤ sortKey b))

instance : IsTotal Entry entryLe :=
  ⟨fun a b => le_total (sortKey a) (sortKey b)⟩

instance : IsTrans Entry entryLe :=
  ⟨fun _ _ _ h1 h2 => le_trans h1 h2⟩

/-- The conflict-list sort key from `merge_po_files` line 165:
`(x[0].msgid, x[0].msgctxt or '')`. -/
def conflictLe (a b : Entry × Entry) : Prop :=
  sortKey a.1 ≤ sortKey b.1

instance : DecidableRel conflictLe :=
  fun a b => inferInstanceAs (Decidable (sortKey a.1 ≤ sortKey b.1))

instance : IsTotal (Entry × Entry) conflictLe :=
  ⟨fun a b => le_total (sortKey a.1) (sortKey b.1)⟩

instance : IsTrans (Entry × Entry) conflictLe :=
  ⟨fun _ _ _ h1 h2 => le_trans h1 h2⟩

/-- The output-ordering step of `merge_po_files`
(`src/po_merge/merger.py` lines 121-125 and 133): partition the decided
entries into active and obsolete, sort each group ascending by
`(msgid, msgctxt or '')`, and emit active before obsolete. -/
def order_entries (merged_entries : List Entry) : List Entry :=
  let active_entries := merged_entries.filter (fun e => ! e.obsolete)
  let obsolete_entries := merged_entries.filter (fun e => e.obsolete)
  List.insertionSort entryLe active_entries ++ List.insertionSort entryLe obsolete_entries

/-- Python's `sep.join(parts)`. -/
def joinSep (sep : String) : List String → String
  | [] => ""
  | [s] => s
  | s :: rest => s ++ sep ++ joinSep sep rest

/-- Source function `format_merge_conflicts` from `src/po_merge/merger.py`;
`entry_to_text` (`str(entry)`, rendered by polib) is a parameter. -/
def format_merge_conflicts (entryText : Entry → String)
    (merge_conflicts : List (Entry × Entry)) : String :=
  if merge_conflicts = [] then ("")
  else
    joinSep ("\n\n") (merge_conflicts.map (fun p =>
      "<<<<<<< MERGE CONFLICT\n" ++ entryText p.1 ++ "\n=======\n"
        ++ entryText p.2 ++ "\n>>>>>>> THEIRS\n"))

/-- Source function `format_compilation_error` from `src/po_merge/merger.py`. -/
def format_compilation_error (error_message : String) : String :=
  "<<<<<<< COMPILATION ERROR\n" ++ error_message
    ++ "\n=======\n# The merged PO file failed compilation validation with msgfmt.\n# Please fix the errors above manually.\n>>>>>>> COMPILATION ERROR\n    "

/-- The dict comprehension of `merge_po_files` lines 99-101: index the
valid entries by `get_unique_entry_key` (a later duplicate key
overwrites an earlier one), then `dict.get`. -/
def dictGet (entries : List Entry) (k : Option String × String) : Option Entry :=
  (entries.filter (fun e => decide (get_unique_entry_key e = k))).getLast?

/-- The unioned key set of `merge_po_files` line 103 (iteration order of
a Python set is arbitrary; the model fixes first-occurrence order). -/
def all_keys (base_entries ours_entries theirs_entries : List Entry) :
    List (Option String × String) :=
  (base_entries.map get_unique_entry_key ++ ours_entries.map get_unique_entry_key
    ++ theirs_entries.map get_unique_entry_key).dedup

/-- The decision loop of `merge_po_files` lines 108-119: decide every
key in order, collecting decided entries and `UnresolvedConflict`
pairs; any other exception from `decide_entry` aborts the loop. -/
def run_decide (config : MergeConfig)
    (bd od td : Option String × String → Option Entry) :
    List (Option String × String) → Except String (List Entry × List (Entry × Entry))
  | [] => .ok ([], [])
  | k :: ks =>
    match decide_entry (bd k) (od k) (td k) config with
    | .fatal m => .error m
    | .entry e => (run_decide config bd od td ks).map (fun p => (e :: p.1, p.2))
    | .noEntry => run_decide config bd od td ks
    | .unresolved o t => (run_decide config bd od td ks).map (fun p => (p.1, (o, t) :: p.2))

/-- The `len(...) > 0` checks of `merge_po_files` lines 149-153. -/
def has_parse_failures (base_result ours_result theirs_result : ParseResult) : Bool :=
  base_result.failed_entries.length != 0
    || ours_result.failed_entries.length != 0
    || theirs_result.failed_entries.length != 0

/-- What one merge invocation leaves behind (modulo I/O): the selected
metadata, the ordered decided entries, the unresolved conflicts, the
final content of the `ours` file, and the process exit code. -/
structure MergeOutput where
  metadata : List (String × String)
  entries : List Entry
  conflicts : List (Entry × Entry)
  fileContent : String
  exitCode : Nat
  deriving DecidableEq, Repr

/-- Source function `merge_po_files` from `src/po_merge/merger.py`, starting after the
three parses.  External collaborators are parameters: `entryText` is
polib's `str(entry)`, `serialize` is `POFile.save`'s rendering of
metadata plus entries, `parseMarkersFn` is `format_parse_error_conflict`
(from this package's parser module), and `validateAns` is the outcome of
the external `msgfmt` run (`some msg` = validation failed with `msg`).
A `.error` result models the uncaught `Exception` raised before
`merged_po.save` is reached, so no output file is written in that case. -/
def merge_po_core (entryText : Entry → String)
    (serialize : List (String × String) → List Entry → String)
    (parseMarkersFn : List (String × String × Nat) → List (String × String × Nat) →
      List (String × String × Nat) → String)
    (validateAns : Option String)
    (base_result ours_result theirs_result : ParseResult)
    (config : MergeConfig) : Except String MergeOutput :=
  let bd := dictGet base_result.valid_entries
  let od := dictGet ours_result.valid_entries
  let td := dictGet theirs_result.valid_entries
  let keys := all_keys base_result.valid_entries ours_result.valid_entries
    theirs_result.valid_entries
  match run_decide config bd od td keys with
  | .error m => .error m
  | .ok (merged_entries, merge_conflicts) =>
    let final_entries := order_entries merged_entries
    let meta :=
      if config.strategy = "theirs" then
        (if theirs_result.metadata ≠ [] then theirs_result.metadata else [])
      else
        (if ours_result.metadata ≠ [] then ours_result.metadata else [])
    let saved := serialize meta final_entries
    let compilation_error := if config.validate_compiled then validateAns else none
    let hpf := has_parse_failures base_result ours_result theirs_result
    let markers1 : List String :=
      if hpf then
        (let pm := parseMarkersFn base_result.failed_entries ours_result.failed_entries
          theirs_result.failed_entries
         if pm ≠ "" then [pm] else [])
      else []
    let markers2 : List String :=
      if merge_conflicts ≠ [] then
        (let sorted_conflicts := List.insertionSort conflictLe merge_conflicts
         let mm := format_merge_conflicts entryText sorted_conflicts
         if mm ≠ "" then [mm] else [])
      else []
    let markers3 : List String :=
      match compilation_error with
      | some msg => [format_compilation_error msg]
      | none => []
    let all_conflict_markers := markers1 ++ markers2 ++ markers3
    let content :=
      if all_conflict_markers ≠ [] then saved ++ "\n\n" ++ joinSep ("\n\n") all_conflict_markers
      else saved
    let code : Nat := if merge_conflicts ≠ [] ∨ hpf = true then 1 else 0
    .ok { metadata := meta
          entries := final_entries
          conflicts := merge_conflicts
          fileContent := content
          exitCode := code }

end po_merge

/-! ## Example entries used by witnesses and counterexamples -/

/-- Spec test vector: base entry {id="hello", msgstr="hej"}. -/
def baseHej : Entry := ⟨none, "hello", "hej", [], false, false, ""⟩

/-- Spec test vector: ours entry {id="hello", msgstr="hallå", fuzzy}. -/
def oursHalla : Entry := ⟨none, "hello", "hallå", [], true, false, ""⟩

/-- Spec test vector: theirs entry {id="hello", msgstr="tjena"}. -/
def theirsTjena : Entry := ⟨none, "hello", "tjena", [], false, false, ""⟩

/-- Example parse results used by witnesses. -/
def prEmpty : ParseResult := ⟨[], [], [], true⟩

/-- Example parse result whose metadata is the "ours" header. -/
def prOursMeta : ParseResult := ⟨[("Language", "sv")], [], [], true⟩

/-- Example parse result whose metadata is the "theirs" header. -/
def prTheirsMeta : ParseResult := ⟨[("Language", "de")], [], [], true⟩

/-- Predicate: `x` occurs as a contiguous substring of `s`. -/
def strOccurs (x s : String) : Prop :=
  x.data <:+: s.data

/-- A genuine conflict as `decide_entry` detects it: both sides present,
and the content-equality tests route the pair into `resolve_conflict`. -/
def genuine_conflict (b : Option Entry) (oe te : Entry) : Prop :=
  match b with
  | none => po_merge.entries_equal oe te = false
  | some be => po_merge.entries_equal be oe = false
      ∧ po_merge.entries_equal be te = false
      ∧ po_merge.entries_equal oe te = false

/-- Concrete ours-side entry used by witnesses. -/
def oursX : Entry := ⟨none, "greet", "x", [], false, false, ""⟩

/-- Concrete theirs-side entry with the same key as `oursX` but different
content. -/
def theirsY : Entry := ⟨none, "greet", "y", [], false, false, ""⟩

/-- Parse result holding only `oursX`. -/
def prOursX : ParseResult := ⟨[], [oursX], [], true⟩

/-- Parse result holding only `theirsY`. -/
def prTheirsY : ParseResult := ⟨[], [theirsY], [], true⟩

/-- The merge output of the concrete conflicting merge used by the C7
witness. -/
def outConflict : po_merge.MergeOutput :=
  ⟨[], [], [(oursX, theirsY)],
    "S\n\n<<<<<<< MERGE CONFLICT\nx\n=======\ny\n>>>>>>> THEIRS\n", 1⟩

/-- Helper: an entry returned by `po_merge.resolve_conflict` is always
one of its two arguments. -/
theorem po_merge.resolve_conflict_mem (o t : Entry) (cfg : MergeConfig) (e : Entry)
    (h : po_merge.resolve_conflict o t cfg = .resolved e) : e = o ∨ e = t := by
  unfold po_merge.resolve_conflict at h
  split_ifs at h <;> simp_all

/-- C1: the claim states a single three-part join key; the
`django_po_merge` engine indeed keys on `(msgctxt, msgid, obsolete)` and
that key separates entries exactly up to context, id and the obsolete
flag, but the `po_merge` engine keys on the two-part
`(msgctxt, msgid)`. -/
theorem C1_entry_key_shape :
    (∀ e : Entry, django_po_merge.get_unique_entry_key e = (e.msgctxt, e.msgid, e.obsolete)) ∧
    (∀ e1 e2 : Entry,
      django_po_merge.get_unique_entry_key e1 = django_po_merge.get_unique_entry_key e2 ↔
        (e1.msgctxt = e2.msgctxt ∧ e1.msgid = e2.msgid ∧ e1.obsolete = e2.obsolete)) ∧
    (∀ e : Entry, po_merge.get_unique_entry_key e = (e.msgctxt, e.msgid)) := by
  refine ⟨fun e => rfl, fun e1 e2 => ?_, fun e => rfl⟩
  simp [django_po_merge.get_unique_entry_key, Prod.ext_iff]

/-- C1 counterexample: in the `po_merge` engine two entries that differ
only in the obsolete flag receive the same join key, so they are not
distinct identities there, contrary to the claim. -/
theorem C1_counterexample :
    po_merge.get_unique_entry_key ⟨some ("menu"), "File", "Fil", [], false, false, ""⟩
      = po_merge.get_unique_entry_key ⟨some ("menu"), "File", "Fil", [], false, true, ""⟩
    ∧ (⟨some ("menu"), "File", "Fil", [], false, false, ""⟩ : Entry)
      ≠ ⟨some ("menu"), "File", "Fil", [], false, true, ""⟩ := by
  exact ⟨rfl, by decide⟩

/-- C2 (amended): in the `po_merge` engine, whenever exactly one of the
two conflicting entries is obsolete, `resolve_conflict` returns the
non-obsolete one, for every fuzzy flag combination, every
`prefer_non_fuzzy` value and every strategy string. -/
theorem C2_obsolete_precedence (o t : Entry) (cfg : MergeConfig)
    (h : o.obsolete ≠ t.obsolete) :
    po_merge.resolve_conflict o t cfg = .resolved (if o.obsolete then t else o) := by
  unfold po_merge.resolve_conflict
  cases ho : o.obsolete <;> cases ht : t.obsolete <;> simp_all

/-- C2 witness: the obsolete-precedence theorem applied to a concrete
conflict, with `strategy = ours` pointing the other way. -/
theorem C2_obsolete_precedence_witness :
    po_merge.resolve_conflict ⟨none, "hi", "a", [], false, true, ""⟩
      ⟨none, "hi", "b", [], true, false, ""⟩ ⟨"ours", true, true⟩
      = .resolved (if (⟨none, "hi", "a", [], false, true, ""⟩ : Entry).obsolete
          then ⟨none, "hi", "b", [], true, false, ""⟩
          else ⟨none, "hi", "a", [], false, true, ""⟩) :=
  C2_obsolete_precedence ⟨none, "hi", "a", [], false, true, ""⟩
    ⟨none, "hi", "b", [], true, false, ""⟩ ⟨"ours", true, true⟩ (by decide)

/-- C2 counterexample: the claim also covers `resolve_conflict` of
`src/django_po_merge/merger.py`, which has no obsolete check: with
`prefer_non_fuzzy` set, an obsolete non-fuzzy ours beats a live fuzzy
theirs, so the non-obsolete entry is not returned. -/
theorem C2_counterexample :
    django_po_merge.resolve_conflict ⟨none, "hello", "a", [], false, true, ""⟩
      ⟨none, "hello", "b", [], true, false, ""⟩ ⟨"none", true, true⟩
      = .resolved ⟨none, "hello", "a", [], false, true, ""⟩
    ∧ (⟨none, "hello", "a", [], false, true, ""⟩ : Entry).obsolete = true
    ∧ (⟨none, "hello", "b", [], true, false, ""⟩ : Entry).obsolete = false := by
  decide

/-- C3: with `prefer_non_fuzzy` set and the obsolete flags equal, the
non-fuzzy side wins in `po_merge.resolve_conflict` for every strategy;
and the spec's concrete example merges to the theirs entry
(msgstr "tjena", fuzzy false) for every strategy string. -/
theorem C3_fuzzy_preference :
    (∀ (o t : Entry) (cfg : MergeConfig), o.obsolete = t.obsolete →
      cfg.prefer_non_fuzzy = true → o.fuzzy ≠ t.fuzzy →
      po_merge.resolve_conflict o t cfg = .resolved (if o.fuzzy then t else o)) ∧
    (∀ (strat : String) (vc : Bool),
      po_merge.decide_entry (some baseHej) (some oursHalla) (some theirsTjena)
          ⟨strat, true, vc⟩ = .entry theirsTjena
        ∧ theirsTjena.msgstr = "tjena" ∧ theirsTjena.fuzzy = false) := by
  constructor
  · intro o t cfg hobs hpref hfuz
    unfold po_merge.resolve_conflict
    cases ho : o.fuzzy <;> cases ht : t.fuzzy <;> simp_all
  · intro strat vc
    exact ⟨rfl, rfl, rfl⟩

/-- C3 witness: the fuzzy-preference theorem applied to the spec's
concrete conflicting pair with `strategy = ours`. -/
theorem C3_fuzzy_preference_witness :
    po_merge.resolve_conflict oursHalla theirsTjena ⟨"ours", true, true⟩
      = .resolved (if oursHalla.fuzzy then theirsTjena else oursHalla) :=
  C3_fuzzy_preference.1 oursHalla theirsTjena ⟨"ours", true, true⟩ rfl rfl (by decide)

/-- C4: with the key present in base, `decide_entry` drops the entry
when both sides deleted it, and returns the surviving side's entry when
exactly one side deleted it — including a survivor equal to base. -/
theorem C4_deletion_rules (be : Entry) (cfg : MergeConfig) :
    po_merge.decide_entry (some be) none none cfg = .noEntry
    ∧ (∀ te : Entry, po_merge.decide_entry (some be) none (some te) cfg = .entry te)
    ∧ (∀ oe : Entry, po_merge.decide_entry (some be) (some oe) none cfg = .entry oe) :=
  ⟨rfl, fun _ => rfl, fun _ => rfl⟩

/-- Helper: if lifting a resolve outcome yields an entry, the outcome
was `resolved` with that entry. -/
theorem liftResolve_entry (ro : ResolveOutcome) (e : Entry)
    (h : liftResolve ro = .entry e) : ro = .resolved e := by
  cases ro <;> simp_all [liftResolve]

/-- C10: whenever `po_merge.decide_entry` returns an entry, it is one of
the three input entries; the merge never fabricates or mixes entries. -/
theorem C10_result_is_an_input (b o t : Option Entry) (cfg : MergeConfig) (e : Entry)
    (h : po_merge.decide_entry b o t cfg = .entry e) :
    b = some e ∨ o = some e ∨ t = some e := by
  unfold po_merge.decide_entry at h
  rcases b with _ | be <;> rcases o with _ | oe <;> rcases t with _ | te
  · simp at h
  · injection h with h1
    exact Or.inr (Or.inr (congrArg some h1))
  · injection h with h1
    exact Or.inr (Or.inl (congrArg some h1))
  · simp only [] at h
    split_ifs at h with heq
    · injection h with h1
      exact Or.inr (Or.inl (congrArg some h1))
    · rcases po_merge.resolve_conflict_mem oe te cfg e (liftResolve_entry _ _ h) with h1 | h1
      · exact Or.inr (Or.inl (congrArg some h1.symm))
      · exact Or.inr (Or.inr (congrArg some h1.symm))
  · simp at h
  · injection h with h1
    exact Or.inr (Or.inr (congrArg some h1))
  · injection h with h1
    exact Or.inr (Or.inl (congrArg some h1))
  · simp only [] at h
    split_ifs at h with h1 h2 h3 h4
    · injection h with h5
      exact Or.inl (congrArg some h5)
    · injection h with h5
      exact Or.inr (Or.inl (congrArg some h5))
    · injection h with h5
      exact Or.inr (Or.inr (congrArg some h5))
    · injection h with h5
      exact Or.inr (Or.inl (congrArg some h5))
    · rcases po_merge.resolve_conflict_mem oe te cfg e (liftResolve_entry _ _ h) with h5 | h5
      · exact Or.inr (Or.inl (congrArg some h5.symm))
      · exact Or.inr (Or.inr (congrArg some h5.symm))

/-- C10 witness: the theorem applied to a concrete add/add agreement. -/
theorem C10_result_is_an_input_witness :
    (none : Option Entry) = some baseHej ∨ some baseHej = some baseHej
      ∨ some baseHej = some baseHej :=
  C10_result_is_an_input none (some baseHej) (some baseHej) ⟨"none", true, true⟩
    baseHej rfl

/-- C5: for every decided entry list, in any order, the ordering step
emits exactly the non-obsolete entries sorted ascending by
`(msgid, msgctxt or '')` followed by the obsolete entries sorted
ascending by the same key. -/
theorem C5_deterministic_ordering (es : List Entry) :
    ∃ a b : List Entry,
      po_merge.order_entries es = a ++ b
      ∧ a.Perm (es.filter (fun e => ! e.obsolete))
      ∧ b.Perm (es.filter (fun e => e.obsolete))
      ∧ List.Sorted po_merge.entryLe a
      ∧ List.Sorted po_merge.entryLe b :=
  ⟨List.insertionSort po_merge.entryLe (es.filter (fun e => ! e.obsolete)),
    List.insertionSort po_merge.entryLe (es.filter (fun e => e.obsolete)),
    rfl,
    List.perm_insertionSort _ _,
    List.perm_insertionSort _ _,
    List.sorted_insertionSort _ _,
    List.sorted_insertionSort _ _⟩

/-- Helper: Python's `x if x else {}` on a list-valued metadata mapping
is just `x`. -/
theorem if_nonempty_eq (m : List (String × String)) :
    (if m ≠ [] then m else []) = m := by
  split_ifs with hm
  · rfl
  · simp only [ne_eq, not_not] at hm
    exact hm.symm

/-- C9: the metadata of a completed merge is the theirs metadata exactly
when `strategy = theirs` and the ours metadata for every other strategy;
the right-hand side mentions no base data, so the base metadata is never
consulted and no field-by-field merge happens. -/
theorem C9_metadata_choice (entryText : Entry → String)
    (serialize : List (String × String) → List Entry → String)
    (parseMarkersFn : List (String × String × Nat) → List (String × String × Nat) →
      List (String × String × Nat) → String)
    (validateAns : Option String) (b o t : ParseResult) (cfg : MergeConfig)
    (out : po_merge.MergeOutput)
    (h : po_merge.merge_po_core entryText serialize parseMarkersFn validateAns b o t cfg
      = .ok out) :
    out.metadata = if cfg.strategy = "theirs" then t.metadata else o.metadata := by
  unfold po_merge.merge_po_core at h
  simp only [] at h
  rcases hrd : po_merge.run_decide cfg (po_merge.dictGet b.valid_entries)
      (po_merge.dictGet o.valid_entries) (po_merge.dictGet t.valid_entries)
      (po_merge.all_keys b.valid_entries o.valid_entries t.valid_entries) with m | pr
  · rw [hrd] at h
    simp at h
  · rw [hrd] at h
    obtain ⟨es, cs⟩ := pr
    simp only [] at h
    injection h with h1
    rw [← h1]
    by_cases hs : cfg.strategy = "theirs" <;>
      simp [hs, if_nonempty_eq]

/-- C9 witness: a concrete merge with `strategy = ours` carries the ours
metadata through. -/
theorem C9_metadata_choice_witness :
    (⟨[("Language", "sv")], [], [], "", 0⟩ : po_merge.MergeOutput).metadata
      = if ("ours" : String) = "theirs" then prTheirsMeta.metadata else prOursMeta.metadata :=
  C9_metadata_choice (fun _ => "") (fun _ _ => "") (fun _ _ _ => "") none
    prEmpty prOursMeta prTheirsMeta ⟨"ours", true, true⟩
    ⟨[("Language", "sv")], [], [], "", 0⟩ rfl

/-- Helper: one parse step always advances the line offset by the
chunk's newline count plus the two-line blank separator. -/
theorem parse_step_offset (pofileFn : String → Except String django_po_merge.POFileLite)
    (st : django_po_merge.PState) (c : String) :
    (django_po_merge.parse_step pofileFn st c).offset
      = st.offset + django_po_merge.countNL c + 2 := rfl

/-- Helper: one parse step appends exactly the chunk's failure record
(if any), stamped with the pre-step offset. -/
theorem parse_step_faileds (pofileFn : String → Except String django_po_merge.POFileLite)
    (st : django_po_merge.PState) (c : String) :
    (django_po_merge.parse_step pofileFn st c).faileds
      = st.faileds ++ (match django_po_merge.chunk_failure pofileFn c with
          | some m => [(c, m, st.offset)]
          | none => []) := by
  unfold django_po_merge.parse_step django_po_merge.chunk_failure
  simp only []
  by_cases hm : (django_po_merge.containsSub c ("msgid \"\"")
      && django_po_merge.containsSub c ("msgstr \"\"")) = true
  · rw [if_pos hm, if_pos hm]
    cases hpo : pofileFn c <;> simp
  · rw [if_neg hm, if_neg hm]
    rcases hcr : django_po_merge.create_unique_entry_from_text pofileFn c with ⟨oent, oerr⟩
    rcases oent with _ | ent
    · rcases oerr with _ | err <;> simp
    · by_cases hid : ent.msgid = "" <;> rcases oerr with _ | err <;> simp [hid]

/-- Helper: one parse step appends exactly the chunk's valid entry
(if any). -/
theorem parse_step_valids (pofileFn : String → Except String django_po_merge.POFileLite)
    (st : django_po_merge.PState) (c : String) :
    (django_po_merge.parse_step pofileFn st c).valids
      = st.valids ++ (if django_po_merge.containsSub c ("msgid \"\"")
            && django_po_merge.containsSub c ("msgstr \"\"") then []
          else
            match django_po_merge.create_unique_entry_from_text pofileFn c with
            | (some entry, _) => if entry.msgid ≠ "" then [entry] else []
            | (none, _) => []) := by
  unfold django_po_merge.parse_step
  simp only []
  by_cases hm : (django_po_merge.containsSub c ("msgid \"\"")
      && django_po_merge.containsSub c ("msgstr \"\"")) = true
  · rw [if_pos hm, if_pos hm]
    cases hpo : pofileFn c <;> simp
  · rw [if_neg hm, if_neg hm]
    rcases hcr : django_po_merge.create_unique_entry_from_text pofileFn c with ⟨oent, oerr⟩
    rcases oent with _ | ent
    · rcases oerr with _ | err <;> simp
    · by_cases hid : ent.msgid = "" <;> rcases oerr with _ | err <;> simp [hid]

/-- Helper: the whole chunk loop accumulates exactly the per-chunk
failure records with their running offsets. -/
theorem parse_loop_faileds (pofileFn : String → Except String django_po_merge.POFileLite)
    (chunks : List String) : ∀ st : django_po_merge.PState,
    (django_po_merge.parse_loop pofileFn chunks st).faileds
      = st.faileds ++ django_po_merge.failures_list pofileFn chunks st.offset := by
  induction chunks with
  | nil => intro st; simp [django_po_merge.parse_loop, django_po_merge.failures_list]
  | cons c cs ih =>
    intro st
    unfold django_po_merge.parse_loop
    rw [ih, parse_step_faileds, parse_step_offset, List.append_assoc]
    simp [django_po_merge.failures_list]

/-- Helper: the whole chunk loop accumulates exactly the per-chunk
valid entries. -/
theorem parse_loop_valids (pofileFn : String → Except String django_po_merge.POFileLite)
    (chunks : List String) : ∀ st : django_po_merge.PState,
    (django_po_merge.parse_loop pofileFn chunks st).valids
      = st.valids ++ django_po_merge.valids_list pofileFn chunks := by
  induction chunks with
  | nil => intro st; simp [django_po_merge.parse_loop, django_po_merge.valids_list]
  | cons c cs ih =>
    intro st
    unfold django_po_merge.parse_loop
    rw [ih, parse_step_valids, List.append_assoc]
    simp [django_po_merge.valids_list]

/-- C6: a failed read propagates as an error to the caller; readable
content always parses to a `ParseResult` (no exception escapes), whose
failed entries are exactly the chunks the underlying parser rejected —
each with its raw text, error message and running line offset — and
whose valid entries are exactly the normally parsed remaining chunks. -/
theorem C6_parser_resilient (pofileFn : String → Except String django_po_merge.POFileLite)
    (readResult : Except String String) :
    (∀ err, readResult = .error err →
      django_po_merge.parse_po_file pofileFn readResult = .error err)
    ∧ (∀ content, readResult = .ok content →
        django_po_merge.parse_po_file pofileFn readResult
          = .ok (django_po_merge.parse_po_resilient_content pofileFn content)
        ∧ (django_po_merge.parse_po_resilient_content pofileFn content).failed_entries
          = django_po_merge.failures_list pofileFn
              (django_po_merge.split_po_entries content) 0
        ∧ (django_po_merge.parse_po_resilient_content pofileFn content).valid_entries
          = django_po_merge.valids_list pofileFn
              (django_po_merge.split_po_entries content)) := by
  constructor
  · intro err h
    rw [h]
    rfl
  · intro content h
    rw [h]
    refine ⟨rfl, ?_, ?_⟩
    · show (django_po_merge.parse_loop pofileFn
          (django_po_merge.split_po_entries content) ⟨[], [], [], 0⟩).faileds = _
      rw [parse_loop_faileds]
      rfl
    · show (django_po_merge.parse_loop pofileFn
          (django_po_merge.split_po_entries content) ⟨[], [], [], 0⟩).valids = _
      rw [parse_loop_valids]
      rfl

/-- C6 witness: the theorem applied to concrete content whose single
chunk the underlying parser rejects. -/
theorem C6_parser_resilient_witness :
    django_po_merge.parse_po_file (fun _ => .error ("syntax error"))
        (.ok ("msgid \"x\"\nmsgstr \"y\""))
      = .ok (django_po_merge.parse_po_resilient_content (fun _ => .error ("syntax error"))
          ("msgid \"x\"\nmsgstr \"y\""))
    ∧ (django_po_merge.parse_po_resilient_content (fun _ => .error ("syntax error"))
          ("msgid \"x\"\nmsgstr \"y\"")).failed_entries
      = django_po_merge.failures_list (fun _ => .error ("syntax error"))
          (django_po_merge.split_po_entries ("msgid \"x\"\nmsgstr \"y\"")) 0
    ∧ (django_po_merge.parse_po_resilient_content (fun _ => .error ("syntax error"))
          ("msgid \"x\"\nmsgstr \"y\"")).valid_entries
      = django_po_merge.valids_list (fun _ => .error ("syntax error"))
          (django_po_merge.split_po_entries ("msgid \"x\"\nmsgstr \"y\"")) :=
  (C6_parser_resilient (fun _ => .error ("syntax error"))
    (.ok ("msgid \"x\"\nmsgstr \"y\""))).2 ("msgid \"x\"\nmsgstr \"y\"") rfl

/-- Helper: string append is list append on the character data. -/
theorem strData_append (a b : String) : (a ++ b).data = a.data ++ b.data := rfl

/-- Helper: string append is associative. -/
theorem strAppend_assoc (a b c : String) : a ++ b ++ c = a ++ (b ++ c) := by
  show String.mk ((a.data ++ b.data) ++ c.data) = String.mk (a.data ++ (b.data ++ c.data))
  rw [List.append_assoc]

/-- Helper: appending the empty string is the identity. -/
theorem strAppend_empty (s : String) : s ++ "" = s := by
  show String.mk (s.data ++ []) = s
  rw [List.append_nil]

/-- Helper: substring occurrence is transitive. -/
theorem strOccurs_trans (x y z : String) (h1 : strOccurs x y) (h2 : strOccurs y z) :
    strOccurs x z :=
  List.IsInfix.trans h1 h2

/-- Helper: a substring of the left part survives appending on the right. -/
theorem strOccurs_append_left (x s t : String) (h : strOccurs x s) : strOccurs x (s ++ t) := by
  unfold strOccurs at *
  rw [strData_append]
  exact List.IsInfix.trans h ⟨[], t.data, by simp⟩

/-- Helper: a substring of the right part survives appending on the left. -/
theorem strOccurs_append_right (x s t : String) (h : strOccurs x t) : strOccurs x (s ++ t) := by
  unfold strOccurs at *
  rw [strData_append]
  exact List.IsInfix.trans h ⟨s.data, [], by simp⟩

/-- Helper: every string occurs in itself. -/
theorem strOccurs_self (x : String) : strOccurs x x :=
  ⟨[], [], by simp⟩

/-- Helper: every element of the joined list occurs in the join. -/
theorem mem_joinSep_strOccurs (sep : String) :
    ∀ (l : List String) (x : String), x ∈ l → strOccurs x (po_merge.joinSep sep l)
  | [], x, hx => absurd hx (List.not_mem_nil x)
  | [y], x, hx => by
    rcases List.mem_singleton.mp hx with rfl
    exact strOccurs_self x
  | y :: z :: rest, x, hx => by
    rcases List.mem_cons.mp hx with rfl | hx'
    · exact strOccurs_append_left _ _ _ (strOccurs_append_left _ _ _ (strOccurs_self x))
    · exact strOccurs_append_right _ _ _ (mem_joinSep_strOccurs sep (z :: rest) x hx')

/-- Helper: both middle components occur in a five-part concatenation. -/
theorem strOccurs_block_parts (A x m y B : String) :
    strOccurs x (A ++ x ++ m ++ y ++ B) ∧ strOccurs y (A ++ x ++ m ++ y ++ B) := by
  constructor
  · exact ⟨A.data, m.data ++ y.data ++ B.data, by
      simp only [strData_append, List.append_assoc]⟩
  · exact ⟨A.data ++ x.data ++ m.data, B.data, by
      simp only [strData_append, List.append_assoc]⟩

/-- Helper: a nonempty-data left part keeps an append nonempty. -/
theorem data_append_ne (a b : String) (ha : a.data ≠ []) : (a ++ b).data ≠ [] := by
  rw [strData_append]
  intro h
  exact ha (List.append_eq_nil.mp h).1

/-- Helper: a string with nonempty data is not the empty string. -/
theorem ne_empty_of_data (s : String) (h : s.data ≠ []) : s ≠ "" :=
  fun hc => h (by rw [hc])

/-- Helper: joining a list whose head has nonempty data is nonempty. -/
theorem joinSep_ne_empty (sep x : String) (rest : List String) (hx : x.data ≠ []) :
    po_merge.joinSep sep (x :: rest) ≠ "" := by
  cases rest with
  | nil => exact ne_empty_of_data _ hx
  | cons y r => exact ne_empty_of_data _ (data_append_ne _ _ (data_append_ne _ _ hx))

/-- Helper: the conflict-marker block of one pair contains the rendered
texts of both competing entries. -/
theorem block_contains (entryText : Entry → String) (p : Entry × Entry) :
    strOccurs (entryText p.1)
        ("<<<<<<< MERGE CONFLICT\n" ++ entryText p.1 ++ "\n=======\n"
          ++ entryText p.2 ++ "\n>>>>>>> THEIRS\n")
    ∧ strOccurs (entryText p.2)
        ("<<<<<<< MERGE CONFLICT\n" ++ entryText p.1 ++ "\n=======\n"
          ++ entryText p.2 ++ "\n>>>>>>> THEIRS\n") :=
  strOccurs_block_parts ("<<<<<<< MERGE CONFLICT\n") (entryText p.1) ("\n=======\n")
    (entryText p.2) ("\n>>>>>>> THEIRS\n")

/-- Helper: the formatted merge-conflict text contains both competing
variants of every conflict pair. -/
theorem format_merge_conflicts_mem (entryText : Entry → String)
    (l : List (Entry × Entry)) (p : Entry × Entry) (hp : p ∈ l) :
    strOccurs (entryText p.1) (po_merge.format_merge_conflicts entryText l)
    ∧ strOccurs (entryText p.2) (po_merge.format_merge_conflicts entryText l) := by
  unfold po_merge.format_merge_conflicts
  rw [if_neg (List.ne_nil_of_mem hp)]
  have hb : ("<<<<<<< MERGE CONFLICT\n" ++ entryText p.1 ++ "\n=======\n"
        ++ entryText p.2 ++ "\n>>>>>>> THEIRS\n")
      ∈ l.map (fun q => "<<<<<<< MERGE CONFLICT\n" ++ entryText q.1 ++ "\n=======\n"
        ++ entryText q.2 ++ "\n>>>>>>> THEIRS\n") :=
    List.mem_map_of_mem _ hp
  have hj := mem_joinSep_strOccurs ("\n\n") _ _ hb
  exact ⟨strOccurs_trans _ _ _ (block_contains entryText p).1 hj,
    strOccurs_trans _ _ _ (block_contains entryText p).2 hj⟩

/-- Helper: formatting a nonempty conflict list yields a nonempty
marker string. -/
theorem format_merge_conflicts_ne_empty (entryText : Entry → String)
    (l : List (Entry × Entry)) (hl : l ≠ []) :
    po_merge.format_merge_conflicts entryText l ≠ "" := by
  unfold po_merge.format_merge_conflicts
  rw [if_neg hl]
  rcases l with _ | ⟨p, rest⟩
  · exact absurd rfl hl
  · simp only [List.map]
    apply joinSep_ne_empty
    apply data_append_ne
    apply data_append_ne
    apply data_append_ne
    apply data_append_ne
    decide

/-- Helper: the final file content always extends the serialized
catalog body. -/
theorem exists_rest (s j : String) (c : Prop) [Decidable c] :
    ∃ rest, (if c then s ++ "\n\n" ++ j else s) = s ++ rest := by
  by_cases hc : c
  · rw [if_pos hc]
    exact ⟨_, strAppend_assoc _ _ _⟩
  · rw [if_neg hc]
    exact ⟨"", (strAppend_empty _).symm⟩

/-- Helper: a substring of the appended marker text occurs in the final
file content when markers are appended. -/
theorem content_contains (x s j : String) (c : Prop) [Decidable c] (hc : c)
    (hx : strOccurs x j) : strOccurs x (if c then s ++ "\n\n" ++ j else s) := by
  rw [if_pos hc]
  exact strOccurs_append_right _ _ _ hx

set_option maxHeartbeats 2000000 in
/-- C7: a merge invocation that completes the decision pass and writes
the output exits 0 exactly when there are no unresolved conflicts and no
parse failures; otherwise it exits 1 while the written content still
starts with the serialized decided catalog and, for every unresolved
conflict pair, contains the rendered text of both competing variants. -/
theorem C7_exit_code_and_markers (entryText : Entry → String)
    (serialize : List (String × String) → List Entry → String)
    (parseMarkersFn : List (String × String × Nat) → List (String × String × Nat) →
      List (String × String × Nat) → String)
    (validateAns : Option String) (b o t : ParseResult) (cfg : MergeConfig)
    (out : po_merge.MergeOutput)
    (h : po_merge.merge_po_core entryText serialize parseMarkersFn validateAns b o t cfg
      = .ok out) :
    (out.exitCode = 0 ↔ (out.conflicts = [] ∧ po_merge.has_parse_failures b o t = false))
    ∧ (out.exitCode = 0 ∨ out.exitCode = 1)
    ∧ (∃ rest : String, out.fileContent = serialize out.metadata out.entries ++ rest)
    ∧ (∀ p ∈ out.conflicts,
        strOccurs (entryText p.1) out.fileContent
        ∧ strOccurs (entryText p.2) out.fileContent) := by
  unfold po_merge.merge_po_core at h
  simp only [] at h
  rcases hrd : po_merge.run_decide cfg (po_merge.dictGet b.valid_entries)
      (po_merge.dictGet o.valid_entries) (po_merge.dictGet t.valid_entries)
      (po_merge.all_keys b.valid_entries o.valid_entries t.valid_entries) with m | pr
  · rw [hrd] at h
    simp at h
  · rw [hrd] at h
    obtain ⟨es, cs⟩ := pr
    simp only [] at h
    injection h with h1
    subst h1
    refine ⟨?_, ?_, ?_, ?_⟩
    · by_cases hcs : cs = [] <;> cases hpfv : po_merge.has_parse_failures b o t <;>
        simp [hcs, hpfv]
    · dsimp only
      split_ifs <;> simp
    · dsimp only
      exact exists_rest _ _ _
    · intro p hp
      dsimp only at hp ⊢
      have hcs : cs ≠ [] := List.ne_nil_of_mem hp
      have hsne : List.insertionSort po_merge.conflictLe cs ≠ [] := by
        intro hnil
        have hperm := List.perm_insertionSort po_merge.conflictLe cs
        rw [hnil] at hperm
        exact hcs (List.Perm.eq_nil hperm.symm)
      have hfmc : po_merge.format_merge_conflicts entryText
          (List.insertionSort po_merge.conflictLe cs) ≠ "" :=
        format_merge_conflicts_ne_empty entryText _ hsne
      have hps : p ∈ List.insertionSort po_merge.conflictLe cs :=
        (List.mem_insertionSort po_merge.conflictLe).mpr hp
      rw [if_pos hcs, if_pos hfmc]
      constructor
      · exact content_contains _ _ _ _ (by simp) (strOccurs_trans _ _ _
          (format_merge_conflicts_mem entryText _ p hps).1
          (mem_joinSep_strOccurs _ _ _ (by simp)))
      · exact content_contains _ _ _ _ (by simp) (strOccurs_trans _ _ _
          (format_merge_conflicts_mem entryText _ p hps).2
          (mem_joinSep_strOccurs _ _ _ (by simp)))

/-- C7 witness: a concrete modify-free add/add conflict under
`strategy = none` exits 1 and the output contains both variants. -/
theorem C7_exit_code_and_markers_witness :
    (outConflict.exitCode = 0 ↔ (outConflict.conflicts = []
        ∧ po_merge.has_parse_failures prEmpty prOursX prTheirsY = false))
    ∧ (outConflict.exitCode = 0 ∨ outConflict.exitCode = 1)
    ∧ (∃ rest : String, outConflict.fileContent = "S" ++ rest)
    ∧ (∀ p ∈ outConflict.conflicts,
        strOccurs p.1.msgstr outConflict.fileContent
        ∧ strOccurs p.2.msgstr outConflict.fileContent) :=
  C7_exit_code_and_markers (fun e => e.msgstr) (fun _ _ => "S") (fun _ _ _ => "") none
    prEmpty prOursX prTheirsY ⟨"none", true, true⟩ outConflict rfl

/-- Helper: if lifting a resolve outcome yields the fatal error, the
outcome was that fatal error. -/
theorem liftResolve_fatal (ro : ResolveOutcome) (m : String)
    (h : liftResolve ro = .fatal m) : ro = .fatal m := by
  cases ro <;> simp_all [liftResolve]

/-- Helper: the only fatal message `po_merge.resolve_conflict` can raise
is the unknown-strategy one. -/
theorem po_merge.resolve_fatal_msg (oe te : Entry) (cfg : MergeConfig) (m : String)
    (h : po_merge.resolve_conflict oe te cfg = .fatal m) :
    m = "Unknown strategy: " ++ cfg.strategy := by
  unfold po_merge.resolve_conflict at h
  split_ifs at h <;> simp_all

/-- Helper: the only fatal message `po_merge.decide_entry` can propagate
is the unknown-strategy one. -/
theorem po_merge.decide_fatal_msg (b o t : Option Entry) (cfg : MergeConfig) (m : String)
    (h : po_merge.decide_entry b o t cfg = .fatal m) :
    m = "Unknown strategy: " ++ cfg.strategy := by
  unfold po_merge.decide_entry at h
  rcases b with _ | be <;> rcases o with _ | oe <;> rcases t with _ | te
  · simp at h
  · simp at h
  · simp at h
  · simp only [] at h
    split_ifs at h with heq <;>
      first
        | simp at h
        | exact po_merge.resolve_fatal_msg _ _ _ _ (liftResolve_fatal _ _ h)
  · simp at h
  · simp at h
  · simp at h
  · simp only [] at h
    split_ifs at h <;>
      first
        | simp at h
        | exact po_merge.resolve_fatal_msg _ _ _ _ (liftResolve_fatal _ _ h)

/-- Helper: when both obsolete flags agree, the fuzzy preference cannot
fire, and an unknown strategy makes `resolve_conflict` raise. -/
theorem po_merge.resolve_reaches_fatal (oe te : Entry) (cfg : MergeConfig)
    (hob : oe.obsolete = te.obsolete)
    (hfz : cfg.prefer_non_fuzzy = true → oe.fuzzy = te.fuzzy)
    (h1 : cfg.strategy ≠ "ours") (h2 : cfg.strategy ≠ "theirs")
    (h3 : cfg.strategy ≠ "none") :
    po_merge.resolve_conflict oe te cfg
      = .fatal ("Unknown strategy: " ++ cfg.strategy) := by
  unfold po_merge.resolve_conflict
  cases hp : cfg.prefer_non_fuzzy
  · simp [hob, hp, h1, h2, h3]
  · simp [hob, hp, hfz hp, h1, h2, h3]

/-- Helper: a genuine conflict routes `decide_entry` into
`resolve_conflict`. -/
theorem po_merge.decide_genuine (b : Option Entry) (oe te : Entry) (cfg : MergeConfig)
    (hg : genuine_conflict b oe te) :
    po_merge.decide_entry b (some oe) (some te) cfg
      = liftResolve (po_merge.resolve_conflict oe te cfg) := by
  cases b with
  | none =>
    unfold genuine_conflict at hg
    simp [po_merge.decide_entry, hg]
  | some be =>
    obtain ⟨g1, g2, g3⟩ := hg
    simp [po_merge.decide_entry, g1, g2, g3]

/-- Helper: one fatal key makes the whole decision loop abort with the
unknown-strategy error. -/
theorem po_merge.run_decide_fatal (cfg : MergeConfig)
    (bd od td : Option String × String → Option Entry) :
    ∀ keys : List (Option String × String),
      (∃ k ∈ keys, ∃ m, po_merge.decide_entry (bd k) (od k) (td k) cfg = .fatal m) →
      po_merge.run_decide cfg bd od td keys
        = .error ("Unknown strategy: " ++ cfg.strategy)
  | [], h => by
    rcases h with ⟨k, hk, _⟩
    exact absurd hk (List.not_mem_nil k)
  | k0 :: ks, h => by
    unfold po_merge.run_decide
    rcases h with ⟨k, hk, m, hm⟩
    cases hd : po_merge.decide_entry (bd k0) (od k0) (td k0) cfg with
    | fatal m0 =>
      rw [po_merge.decide_fatal_msg _ _ _ _ _ hd]
    | entry e =>
      rcases List.mem_cons.mp hk with rfl | hk'
      · rw [hd] at hm
        simp at hm
      · rw [po_merge.run_decide_fatal cfg bd od td ks ⟨k, hk', m, hm⟩]
        rfl
    | noEntry =>
      rcases List.mem_cons.mp hk with rfl | hk'
      · rw [hd] at hm
        simp at hm
      · exact po_merge.run_decide_fatal cfg bd od td ks ⟨k, hk', m, hm⟩
    | unresolved o1 t1 =>
      rcases List.mem_cons.mp hk with rfl | hk'
      · rw [hd] at hm
        simp at hm
      · rw [po_merge.run_decide_fatal cfg bd od td ks ⟨k, hk', m, hm⟩]
        rfl

/-- C8: with a strategy outside {ours, theirs, none}, if any key's
conflict reaches the strategy step, the whole merge invocation aborts
with the unknown-strategy error before any output is produced (a
`.error` result carries no merge output or file content). -/
theorem C8_unknown_strategy_aborts (entryText : Entry → String)
    (serialize : List (String × String) → List Entry → String)
    (parseMarkersFn : List (String × String × Nat) → List (String × String × Nat) →
      List (String × String × Nat) → String)
    (validateAns : Option String) (b o t : ParseResult) (cfg : MergeConfig)
    (h1 : cfg.strategy ≠ "ours") (h2 : cfg.strategy ≠ "theirs")
    (h3 : cfg.strategy ≠ "none")
    (hconf : ∃ k ∈ po_merge.all_keys b.valid_entries o.valid_entries t.valid_entries,
      ∃ oe te : Entry,
        po_merge.dictGet o.valid_entries k = some oe
        ∧ po_merge.dictGet t.valid_entries k = some te
        ∧ genuine_conflict (po_merge.dictGet b.valid_entries k) oe te
        ∧ oe.obsolete = te.obsolete
        ∧ (cfg.prefer_non_fuzzy = true → oe.fuzzy = te.fuzzy)) :
    po_merge.merge_po_core entryText serialize parseMarkersFn validateAns b o t cfg
      = .error ("Unknown strategy: " ++ cfg.strategy) := by
  obtain ⟨k, hk, oe, te, ho, ht, hg, hob, hfz⟩ := hconf
  have hdec : po_merge.decide_entry (po_merge.dictGet b.valid_entries k)
      (po_merge.dictGet o.valid_entries k) (po_merge.dictGet t.valid_entries k) cfg
      = .fatal ("Unknown strategy: " ++ cfg.strategy) := by
    rw [ho, ht, po_merge.decide_genuine _ _ _ _ hg,
      po_merge.resolve_reaches_fatal oe te cfg hob hfz h1 h2 h3]
    rfl
  have hrun := po_merge.run_decide_fatal cfg (po_merge.dictGet b.valid_entries)
    (po_merge.dictGet o.valid_entries) (po_merge.dictGet t.valid_entries)
    (po_merge.all_keys b.valid_entries o.valid_entries t.valid_entries)
    ⟨k, hk, _, hdec⟩
  unfold po_merge.merge_po_core
  simp only []
  rw [hrun]

/-- C8 witness: a concrete conflicting merge under strategy `foo` aborts
with the unknown-strategy error. -/
theorem C8_unknown_strategy_aborts_witness :
    po_merge.merge_po_core (fun e => e.msgstr) (fun _ _ => "S") (fun _ _ _ => "") none
        prEmpty prOursX prTheirsY ⟨"foo", true, true⟩
      = .error ("Unknown strategy: " ++ "foo") :=
  C8_unknown_strategy_aborts (fun e => e.msgstr) (fun _ _ => "S") (fun _ _ _ => "") none
    prEmpty prOursX prTheirsY ⟨"foo", true, true⟩ (by decide) (by decide) (by decide)
    ⟨(none, "greet"), by decide, oursX, theirsY, rfl, rfl, rfl, rfl, fun _ => rfl⟩
